import Mathlib

/-!
Shallow embedding of `plot_metrics.py`: a script that reads a JSON document
mapping string-encoded millisecond timestamps to metrics records and aligns
them into per-series arrays (CPU, transactions-per-second, per-pod CPU and
memory) together with a suggested bar width for rendering.

Modelling conventions:
* JSON numbers are modelled as exact rationals (`ℚ`); the script's float
  arithmetic is read at the specification level, i.e. symbolically.
* A parsed JSON document is an association list from keys to records.  The
  Python runtime's `int(k)` coercion of a key string is modelled by carrying
  the parsed integer alongside the literal string in `RawKey`; the Python
  rendering `str(int(k))` is `toString k.val` (identical decimal forms).
* Python expressions that can raise (`data[str(k)]` raising `KeyError`,
  `pod.get` on a non-`dict` raising `AttributeError`) are modelled in the
  `Option` monad: `none` models the raised exception.
* The duck-typed JSON shapes the script dispatches on (`isinstance` checks
  for `list` / `dict`) are modelled by small sum types with an explicit
  `nondict` constructor for values of any other runtime type.
-/

namespace PlotMetrics

/-- A per-pod record as the script reads it: optional `podName` / `name`
identification fields and optional numeric fields (absent fields are `none`,
the script defaults them to `0` via `.get(..., 0)`). -/
structure PodRecord where
  podName : Option String := none
  name : Option String := none
  cpuInMillicores : Option ℚ := none
  memoryInMebibytes : Option ℚ := none
deriving DecidableEq, Repr

/-- An element of a `podMetrics` collection: either a JSON object (a `dict`
at runtime) or a value of any other runtime type. -/
inductive PodEntry where
  | dict (r : PodRecord)
  | nondict
deriving DecidableEq, Repr

/-- The value found under the `podMetrics` key of a cluster entry: a list of
pod records, a name-to-record mapping, or any other shape (which the script
ignores: it is neither `list` nor `dict`). -/
inductive PodMetrics where
  | plist (ps : List PodEntry)
  | pmap (kvs : List (String × PodEntry))
  | other
deriving DecidableEq, Repr

/-- One element of the normalized `clusters` list: a JSON object possibly
holding a `podMetrics` field, or a non-`dict` value (skipped at line 31 of
the source). -/
inductive ClusterEntry where
  | dict (podMetrics : Option PodMetrics)
  | nondict
deriving DecidableEq, Repr

/-- The value of the `clusterMetrics` field: either already a list of cluster
entries or a single non-list value which the script wraps into a one-element
list (line 29). -/
inductive ClusterMetrics where
  | list (cs : List ClusterEntry)
  | single (c : ClusterEntry)
deriving DecidableEq, Repr

/-- A timestamped metrics record (one value of the top-level JSON object).
All fields are optional; the script applies `.get(field, default)`. -/
structure Snapshot where
  cpuInMillicores : Option ℚ := none
  memoryInMebibytes : Option ℚ := none
  transactionCount : Option ℚ := none
  clusterMetrics : Option ClusterMetrics := none
deriving DecidableEq, Repr

/-- A top-level key of the JSON document: the literal key string together
with the integer the Python runtime parses it to via `int(k)`.  A key is
canonical when `str = toString val`, i.e. when `str(int(k)) == k`. -/
structure RawKey where
  str : String
  val : Int
deriving DecidableEq, Repr

/-- The parsed JSON document: an association list (Python `dict` preserves
insertion order; string keys are distinct after JSON parsing). -/
abbrev Document := List (RawKey × Snapshot)

/-- Dictionary lookup `data[s]` / `data.get(s)` by literal string key. -/
def lookupStr (d : Document) (s : String) : Option Snapshot :=
  (d.find? fun kv => kv.1.str == s).map Prod.snd

/-- `data.get(s, {})` — lookup with an empty record as default (line 25). -/
def getStr (d : Document) (s : String) : Snapshot :=
  (lookupStr d s).getD {}

/-- A Python list comprehension whose body may raise, in the `Option` monad:
`none` models the raised exception aborting the whole comprehension. -/
def mapOrFail (f : α → Option β) : List α → Option (List β)
  | [] => some []
  | a :: as =>
    match f a, mapOrFail f as with
    | some b, some bs => some (b :: bs)
    | _, _ => none

/-- A Python `for` loop threading an accumulator whose body may raise. -/
def foldOrFail (f : β → α → Option β) : β → List α → Option β
  | b, [] => some b
  | b, a :: as =>
    match f b a with
    | some b2 => foldOrFail f b2 as
    | none => none

/-- Line 16: `keys_ms = sorted(int(k) for k in data.keys())`.  Note: `sorted`
does not deduplicate, so distinct string keys coercing to the same integer
each contribute one element. -/
def keys_ms (d : Document) : List Int :=
  List.insertionSort (· ≤ ·) (d.map fun kv => kv.1.val)

/-- Line 19: `[data[str(k)].get("transactionCount", 0) for k in keys_ms]`.
The subscript `data[str(k)]` raises `KeyError` when the canonical rendering
of `k` is not a literal key, hence the `Option` result. -/
def transaction_counts (d : Document) : Option (List ℚ) :=
  mapOrFail (fun k => (lookupStr d (toString k)).map fun s => s.transactionCount.getD 0)
    (keys_ms d)

/-- Line 100: `[data[str(k)].get("cpuInMillicores", 0) for k in keys_ms]`
(the aggregate-CPU fallback used when no pod was found). -/
def cpu_values (d : Document) : Option (List ℚ) :=
  mapOrFail (fun k => (lookupStr d (toString k)).map fun s => s.cpuInMillicores.getD 0)
    (keys_ms d)

/-- The `merged` dict built per timestamp: insertion-ordered map from pod
name to its accumulated `(cpuInMillicores, memoryInMebibytes)` pair. -/
abbrev Merged := List (String × ℚ × ℚ)

/-- Lines 40–43 / 48–51: ensure the pod has an entry (initialised to zeros)
and add the contribution to it.  A Python `dict` updates the unique entry
for the name and appends unseen names in insertion order. -/
def addPod : Merged → String → ℚ → ℚ → Merged
  | [], n, c, m => [(n, c, m)]
  | e :: es, n, c, m =>
    if e.1 = n then (e.1, e.2.1 + c, e.2.2 + m) :: es
    else e :: addPod es n c m

/-- Line 37: `pod.get("podName") or pod.get("name")` followed by the falsy
check `if not pod_name: continue` (line 38).  `None` and the empty string
are falsy; the result is the effective pod name, or `none` to skip. -/
def pod_effective_name (r : PodRecord) : Option String :=
  let primary :=
    match r.podName with
    | some s => if s = "" then r.name else some s
    | none => r.name
  match primary with
  | some s => if s = "" then none else some s
  | none => none

/-- Lines 36–43: process one element of a `podMetrics` *list*.  The script
calls `pod.get(...)` without an `isinstance` check, so a non-`dict` element
raises `AttributeError`: modelled as `none`. -/
def procListPod (m : Merged) : PodEntry → Option Merged
  | .nondict => none
  | .dict r =>
    match pod_effective_name r with
    | none => some m
    | some n =>
      some (addPod m n (r.cpuInMillicores.getD 0) (r.memoryInMebibytes.getD 0))

/-- Lines 45–51: process one `(pod_name, metrics)` item of a `podMetrics`
*mapping*.  Non-`dict` values are skipped by the `isinstance` check at
line 46; mapping keys are used as pod names with no falsiness check. -/
def procMapPod (m : Merged) : String × PodEntry → Merged
  | (_, .nondict) => m
  | (n, .dict r) =>
    addPod m n (r.cpuInMillicores.getD 0) (r.memoryInMebibytes.getD 0)

/-- Lines 30–51: process one cluster entry.  Non-`dict` entries are skipped
(line 31); a missing or oddly-shaped `podMetrics` is skipped (neither
`isinstance` branch fires). -/
def procCluster (m : Merged) : ClusterEntry → Option Merged
  | .nondict => some m
  | .dict none => some m
  | .dict (some (.plist ps)) => foldOrFail procListPod m ps
  | .dict (some (.pmap kvs)) => some (kvs.foldl procMapPod m)
  | .dict (some .other) => some m

/-- Lines 26–29: `entry.get("clusterMetrics", [])` then wrapping a non-list
value into a one-element list. -/
def clustersOf (s : Snapshot) : List ClusterEntry :=
  match s.clusterMetrics with
  | none => []
  | some (.list cs) => cs
  | some (.single c) => [c]

/-- Lines 27–53 for a single timestamp: fold all cluster entries into the
`merged` dict, starting from the empty dict. -/
def mergedOf (s : Snapshot) : Option Merged :=
  foldOrFail procCluster [] (clustersOf s)

/-- Lines 24–53: the `pod_metrics_by_time` list, one merged dict per element
of `keys_ms` (using `data.get(str(k), {})`, which never raises). -/
def pod_metrics_by_time (d : Document) : Option (List Merged) :=
  mapOrFail (fun k => mergedOf (getStr d (toString k))) (keys_ms d)

/-- Decision procedure for the lexicographic order on strings computed via
their character lists; the order decided is the standard `≤` on `String`
(matching Python's string comparison by code points). -/
def decStrLe (a b : String) : Decidable (a ≤ b) :=
  decidable_of_iff (a.toList ≤ b.toList) String.le_iff_toList_le.symm

/-- Line 55: `pod_names = sorted(pod_names)` where the set accumulated the
keys of every merged dict — the sorted, duplicate-free list of all pod
names observed at any timestamp. -/
def pod_names (ms : List Merged) : List String :=
  @List.insertionSort String (· ≤ ·) (fun a b => decStrLe a b)
    ((ms.flatMap fun m => m.map Prod.fst).dedup)

/-- Lines 62–64: `pm.get(pod, {})` then `.get(field, 0)` — the pod's
accumulated pair at one timestamp, defaulting to zeros when absent. -/
def getPod : Merged → String → ℚ × ℚ
  | [], _ => (0, 0)
  | e :: es, n => if e.1 = n then e.2 else getPod es n

/-- Lines 58–64: the per-pod CPU series, one value per timestamp. -/
def pod_cpu_series (ms : List Merged) (n : String) : List ℚ :=
  ms.map fun m => (getPod m n).1

/-- Lines 58–64: the per-pod memory series, one value per timestamp. -/
def pod_mem_series (ms : List Merged) (n : String) : List ℚ :=
  ms.map fun m => (getPod m n).2

/-- Lines 67–77: the transactions-per-second series derived from the
cumulative counts.  Index 0 is 0; a non-positive time delta yields 0; the
division only happens under the `delta_ms > 0` guard. -/
def tx_per_sec (keys : List Int) (txs : List ℚ) : List ℚ :=
  (List.range txs.length).map fun i =>
    if i = 0 then 0
    else
      let dTx : ℚ := txs.getD i 0 - txs.getD (i - 1) 0
      let dMs : Int := keys.getD i 0 - keys.getD (i - 1) 0
      if dMs ≤ 0 then 0 else dTx / ((dMs : ℚ) / 1000)

/-- Lines 80–84: the minimum strictly positive consecutive gap, with
fallback 1 when the list has at most one element or no positive gap. -/
def min_delta (keys : List Int) : Int :=
  if 1 < keys.length then
    let deltas :=
      ((keys.zip keys.tail).map fun p => p.2 - p.1).filter fun dd => decide (0 < dd)
    match deltas.min? with
    | some m => m
    | none => 1
  else 1

/-- Line 85: `bar_width = max(float(min_delta) * 0.8, 1.0)`. -/
def bar_width (keys : List Int) : ℚ :=
  max ((min_delta keys : ℚ) * 0.8) 1

/-- Per-pod contribution of one element of a `podMetrics` list. -/
def podEntryContrib (p : PodEntry) (n : String) : ℚ × ℚ :=
  match p with
  | .nondict => (0, 0)
  | .dict r =>
    if pod_effective_name r = some n then (r.cpuInMillicores.getD 0, r.memoryInMebibytes.getD 0)
    else (0, 0)

/-- Per-pod contribution of one item of a `podMetrics` mapping. -/
def mapItemContrib (kv : String × PodEntry) (n : String) : ℚ × ℚ :=
  match kv.2 with
  | .nondict => (0, 0)
  | .dict r =>
    if kv.1 = n then (r.cpuInMillicores.getD 0, r.memoryInMebibytes.getD 0)
    else (0, 0)

/-- Per-pod contribution of one cluster entry: the sum of the contributions
of its pod records. -/
def clusterContrib (c : ClusterEntry) (n : String) : ℚ × ℚ :=
  match c with
  | .nondict => (0, 0)
  | .dict none => (0, 0)
  | .dict (some (.plist ps)) => (ps.map fun p => podEntryContrib p n).sum
  | .dict (some (.pmap kvs)) => (kvs.map fun kv => mapItemContrib kv n).sum
  | .dict (some .other) => (0, 0)

/-- An output channel of the process. -/
inductive Chan where
  | stdout
  | stderr
deriving DecidableEq, Repr

/-- Outcome of lines 8–10: either the parsed document or the exception text
of a failed open/parse. -/
inductive ReadOutcome where
  | ok (d : Document)
  | err (msg : String)

/-- Observable effects of one run: messages written (with their channel), the
early exit code if any, and how many chart windows were shown. -/
structure RunResult where
  output : List (Chan × String)
  exitCode : Option Nat
  chartsShown : Nat
deriving DecidableEq, Repr

/-- Effect of an uncaught Python exception: the interpreter prints a
traceback (text not modelled here) and exits with status 1; no chart window
is shown. -/
def crashedRun : RunResult :=
  { output := [], exitCode := some 1, chartsShown := 0 }

/-- Control flow of `plot_metrics` (lines 7–154): a failed open/parse prints
the error message via `print` — which writes to standard output — and exits
with status 1 before any figure is created (lines 11–13); otherwise the
aligned series are computed (an extraction failure aborts the run) and the
two chart windows are shown.  `cpu_values` is only evaluated on the
no-pods fallback path (lines 93–101). -/
def plot_metrics : ReadOutcome → RunResult
  | .err e =>
    { output := [(Chan.stdout, "Error reading JSON file: " ++ e)]
      exitCode := some 1
      chartsShown := 0 }
  | .ok d =>
    match transaction_counts d, pod_metrics_by_time d with
    | some _, some ms =>
      if pod_names ms = [] then
        match cpu_values d with
        | some _ => { output := [], exitCode := none, chartsShown := 2 }
        | none => crashedRun
      else { output := [], exitCode := none, chartsShown := 2 }
    | _, _ => crashedRun

/-- Modelled from the spec wording (§4.1 step 6), for comparison with the
code's `bar_width`: the smallest strictly-positive consecutive timestamp
difference, when one exists. -/
def spec_min_positive_gap (keys : List Int) : Option Int :=
  (((keys.zip keys.tail).map fun p => p.2 - p.1).filter fun dd => decide (0 < dd)).min?

/-- Modelled from the spec wording (§4.1 step 6): `max(0.8 * min_positive_gap,
1.0)`, and `1.0` when no strictly-positive gap exists (which covers the
fewer-than-two-distinct-timestamps case). -/
def spec_bar_width (keys : List Int) : ℚ :=
  match spec_min_positive_gap keys with
  | none => 1
  | some g => max (0.8 * (g : ℚ)) 1

/-- The document of the spec's rate scenario: two timestamps 0 and 1000 with
CPU 100/200 and cumulative transaction counts 0/50. -/
def sampleDoc : Document :=
  [(⟨"0", 0⟩, { cpuInMillicores := some 100, transactionCount := some 0 }),
   (⟨"1000", 1000⟩, { cpuInMillicores := some 200, transactionCount := some 50 })]

/-- A cluster entry reporting pod `X` as a `podMetrics` list: CPU 10, MiB 1. -/
def clusterXList : ClusterEntry :=
  .dict (some (.plist [.dict
    { podName := some "X", cpuInMillicores := some 10, memoryInMebibytes := some 1 }]))

/-- A cluster entry reporting the same pod `X` as a `podMetrics` mapping:
CPU 5, MiB 2. -/
def clusterXMap : ClusterEntry :=
  .dict (some (.pmap [("X", .dict
    { cpuInMillicores := some 5, memoryInMebibytes := some 2 })]))

/-- A snapshot whose two cluster entries both report pod `X`. -/
def twoClusterSnapA : Snapshot :=
  { clusterMetrics := some (.list [clusterXList, clusterXMap]) }

/-- The same snapshot with the cluster entries in the opposite order. -/
def twoClusterSnapB : Snapshot :=
  { clusterMetrics := some (.list [clusterXMap, clusterXList]) }

/-- The document of the spec's pod scenario: pods `A` (CPU 10) and `B`
(CPU 20) at timestamp 0, only pod `A` (CPU 5) at timestamp 1000. -/
def podScenarioDoc : Document :=
  [(⟨"0", 0⟩, { clusterMetrics := some (.single (.dict (some (.plist
      [.dict { podName := some "A", cpuInMillicores := some 10 },
       .dict { podName := some "B", cpuInMillicores := some 20 }])))) }),
   (⟨"1000", 1000⟩, { clusterMetrics := some (.single (.dict (some (.plist
      [.dict { podName := some "A", cpuInMillicores := some 5 }])))) })]

/-- The merged dicts the script builds for `podScenarioDoc`. -/
def podScenarioMerged : List Merged :=
  [[("A", 10, 0), ("B", 20, 0)], [("A", 5, 0)]]

/-- A document with two distinct string keys, `"7"` and `"007"`, that coerce
to the same integer 7. -/
def dupKeyDoc : Document :=
  [(⟨"7", 7⟩, { transactionCount := some 1 }),
   (⟨"007", 7⟩, { transactionCount := some 2 })]

/-- A second copy of the duplicate-coercion situation, with different
payloads: `"7"` carries count 3, `"007"` carries count 4. -/
def shadowKeyDoc : Document :=
  [(⟨"7", 7⟩, { transactionCount := some 3 }),
   (⟨"007", 7⟩, { transactionCount := some 4 })]

/-- A document whose only key `"007"` is non-canonical and whose canonical
rendering `"7"` is not a key. -/
def orphanKeyDoc : Document :=
  [(⟨"007", 7⟩, { transactionCount := some 9 })]

/-- A single-timestamp document (fewer than two distinct timestamps). -/
def singleKeyDoc : Document :=
  [(⟨"3", 3⟩, {})]

/-- A document whose `podMetrics` list contains a non-`dict` element. -/
def badPodDoc : Document :=
  [(⟨"0", 0⟩, { clusterMetrics := some (.single (.dict (some (.plist [.nondict])))) })]

theorem getPod_addPod (m : Merged) (nm : String) (c me : ℚ) (n : String) :
    getPod (addPod m nm c me) n = getPod m n + (if n = nm then ((c, me) : ℚ × ℚ) else 0) := by
  induction m with
  | nil =>
    by_cases h : nm = n <;>
      simp [addPod, getPod, h, Prod.ext_iff, eq_comm]
  | cons e es ih =>
    by_cases h1 : e.1 = nm
    · by_cases h2 : e.1 = n
      · subst h1; subst h2
        simp [addPod, getPod, Prod.ext_iff, add_comm]
      · have hn : ¬ n = nm := fun hc => h2 (hc ▸ h1)
        have hn2 : ¬ nm = n := fun hc => hn hc.symm
        simp [addPod, getPod, h1, h2, hn, hn2]
    · by_cases h2 : e.1 = n
      · have hn : ¬ n = nm := fun hc => h1 (h2.trans hc)
        simp [addPod, getPod, h1, h2, hn]
      · simp [addPod, getPod, h1, h2, ih]

theorem getPod_eq_zero_of_absent (m : Merged) (n : String) (h : ∀ e ∈ m, e.1 ≠ n) :
    getPod m n = (0, 0) := by
  induction m with
  | nil => rfl
  | cons e es ih =>
    have he : e.1 ≠ n := h e (List.mem_cons_self e es)
    simp only [getPod, he, if_false]
    exact ih fun x hx => h x (List.mem_cons_of_mem e hx)

theorem procListPod_getPod (m m2 : Merged) (p : PodEntry) (n : String)
    (h : procListPod m p = some m2) :
    getPod m2 n = getPod m n + podEntryContrib p n := by
  cases p with
  | nondict => simp [procListPod] at h
  | dict r =>
    simp only [procListPod] at h
    cases hn : pod_effective_name r with
    | none =>
      rw [hn] at h
      cases h
      simp [podEntryContrib, hn]
    | some nm =>
      rw [hn] at h
      cases h
      rw [getPod_addPod]
      by_cases he : nm = n
      · subst he
        simp [podEntryContrib, hn]
      · have : ¬ n = nm := fun hc => he hc.symm
        simp [podEntryContrib, hn, he, this]

theorem foldListPods_getPod (ps : List PodEntry) :
    ∀ (m m2 : Merged) (n : String), foldOrFail procListPod m ps = some m2 →
      getPod m2 n = getPod m n + (ps.map fun p => podEntryContrib p n).sum := by
  induction ps with
  | nil =>
    intro m m2 n h
    cases h
    simp [foldOrFail]
  | cons p ps ih =>
    intro m m2 n h
    simp only [foldOrFail] at h
    cases hp : procListPod m p with
    | none => rw [hp] at h; cases h
    | some m1 =>
      rw [hp] at h
      have h1 := procListPod_getPod m m1 p n hp
      have h2 := ih m1 m2 n h
      rw [h2, h1]
      simp [add_assoc, add_comm, add_left_comm]

theorem foldMapPods_getPod (kvs : List (String × PodEntry)) :
    ∀ (m : Merged) (n : String),
      getPod (kvs.foldl procMapPod m) n = getPod m n + (kvs.map fun kv => mapItemContrib kv n).sum := by
  induction kvs with
  | nil => intro m n; simp
  | cons kv kvs ih =>
    intro m n
    simp only [List.foldl_cons, List.map_cons, List.sum_cons]
    rw [ih]
    have : getPod (procMapPod m kv) n = getPod m n + mapItemContrib kv n := by
      rcases kv with ⟨nm, pe⟩
      cases pe with
      | nondict => simp [procMapPod, mapItemContrib]
      | dict r =>
        simp only [procMapPod, mapItemContrib]
        rw [getPod_addPod]
        by_cases he : nm = n
        · subst he; simp
        · have : ¬ n = nm := fun hc => he hc.symm
          simp [he, this]
    rw [this]
    simp [add_assoc, add_comm, add_left_comm]

theorem procCluster_getPod (m m2 : Merged) (c : ClusterEntry) (n : String)
    (h : procCluster m c = some m2) :
    getPod m2 n = getPod m n + clusterContrib c n := by
  cases c with
  | nondict => cases h; simp [clusterContrib]
  | dict pm =>
    cases pm with
    | none => cases h; simp [clusterContrib]
    | some v =>
      cases v with
      | plist ps =>
        simp only [procCluster] at h
        rw [foldListPods_getPod ps m m2 n h]
        rfl
      | pmap kvs =>
        simp only [procCluster] at h
        cases h
        rw [foldMapPods_getPod]
        rfl
      | other => cases h; simp [clusterContrib]

theorem mergeClusters_getPod (cs : List ClusterEntry) :
    ∀ (m m2 : Merged) (n : String), foldOrFail procCluster m cs = some m2 →
      getPod m2 n = getPod m n + (cs.map fun c => clusterContrib c n).sum := by
  induction cs with
  | nil => intro m m2 n h; cases h; simp [foldOrFail]
  | cons c cs ih =>
    intro m m2 n h
    simp only [foldOrFail] at h
    cases hc : procCluster m c with
    | none => rw [hc] at h; cases h
    | some m1 =>
      rw [hc] at h
      rw [ih m1 m2 n h, procCluster_getPod m m1 c n hc]
      simp [add_assoc, add_comm, add_left_comm]

theorem mapOrFail_length (f : α → Option β) :
    ∀ (l : List α) (ys : List β), mapOrFail f l = some ys → ys.length = l.length := by
  intro l
  induction l with
  | nil =>
    intro ys h
    cases h
    rfl
  | cons a as ih =>
    intro ys h
    simp only [mapOrFail] at h
    cases hfa : f a <;> cases hrec : mapOrFail f as <;> simp [hfa, hrec] at h
    subst h
    simp [ih _ hrec]

theorem mapOrFail_eq_none_iff (f : α → Option β) :
    ∀ l : List α, mapOrFail f l = none ↔ ∃ a ∈ l, f a = none := by
  intro l
  induction l with
  | nil => simp [mapOrFail]
  | cons a as ih =>
    cases hfa : f a <;> cases hrec : mapOrFail f as <;>
      simp [mapOrFail, hfa, hrec, List.exists_mem_cons_iff, ← ih]

theorem eq_of_mem_short (l : List α) (hl : l.length ≤ 1) :
    ∀ x ∈ l, ∀ y ∈ l, x = y := by
  cases l with
  | nil => intro x hx; cases hx
  | cons a t =>
    cases t with
    | nil =>
      intro x hx y hy
      simp only [List.mem_singleton] at hx hy
      rw [hx, hy]
    | cons b t2 => simp at hl

theorem zip_tail_nil (l : List α) (h : l.length ≤ 1) : l.zip l.tail = [] := by
  cases l with
  | nil => rfl
  | cons a t =>
    cases t with
    | nil => rfl
    | cons b t2 => simp at h

theorem tx_per_sec_getElem (keys : List Int) (txs : List ℚ) (i : Nat) (hi : i < txs.length) :
    (tx_per_sec keys txs)[i]? =
      some (if i = 0 then 0
        else if keys.getD i 0 - keys.getD (i - 1) 0 ≤ 0 then 0
        else (txs.getD i 0 - txs.getD (i - 1) 0) /
          (((keys.getD i 0 - keys.getD (i - 1) 0 : Int) : ℚ) / 1000)) := by
  simp [tx_per_sec, List.getElem?_map, List.getElem?_range, hi]
/-- C3: per-timestamp pod aggregation is additive across cluster entries —
a pod's total is the sum of its contributions from every cluster entry,
never an overwrite — and commutative: permuting the cluster entries leaves
every pod's accumulated CPU/memory pair unchanged. -/
theorem pod_aggregation_additive_commutative
    (s1 s2 : Snapshot) (m1 m2 : Merged)
    (h1 : mergedOf s1 = some m1) (h2 : mergedOf s2 = some m2)
    (hperm : List.Perm (clustersOf s1) (clustersOf s2)) :
    ∀ n, getPod m1 n = ((clustersOf s1).map fun c => clusterContrib c n).sum
      ∧ getPod m1 n = getPod m2 n := by
  intro n
  have e1 := mergeClusters_getPod (clustersOf s1) [] m1 n h1
  have e2 := mergeClusters_getPod (clustersOf s2) [] m2 n h2
  have hz : getPod [] n = 0 := rfl
  rw [hz, zero_add] at e1 e2
  exact ⟨e1, by rw [e1, e2]; exact List.Perm.sum_eq (hperm.map _)⟩

/-- C3 witness: two cluster entries both reporting pod `X` (one as a list,
one as a mapping, in either order) sum to `(15, 3)`. -/
theorem pod_aggregation_additive_commutative_witness :
    mergedOf twoClusterSnapA = some [("X", 15, 3)]
    ∧ mergedOf twoClusterSnapB = some [("X", 15, 3)]
    ∧ getPod [("X", 15, 3)] "X" =
        ((clustersOf twoClusterSnapA).map fun c => clusterContrib c "X").sum
    ∧ clusterContrib clusterXList "X" = (10, 1)
    ∧ clusterContrib clusterXMap "X" = (5, 2) := by
  have hA : mergedOf twoClusterSnapA = some [("X", 15, 3)] := by
    norm_num [mergedOf, clustersOf, twoClusterSnapA, clusterXList, clusterXMap,
      foldOrFail, procCluster, procListPod, procMapPod, addPod, pod_effective_name,
      show ("X" : String) ≠ "" from by decide]
  have hB : mergedOf twoClusterSnapB = some [("X", 15, 3)] := by
    norm_num [mergedOf, clustersOf, twoClusterSnapB, clusterXList, clusterXMap,
      foldOrFail, procCluster, procListPod, procMapPod, addPod, pod_effective_name,
      show ("X" : String) ≠ "" from by decide]
  have hperm : List.Perm (clustersOf twoClusterSnapA) (clustersOf twoClusterSnapB) :=
    List.Perm.swap clusterXMap clusterXList []
  refine ⟨hA, hB, ?_, ?_, ?_⟩
  · exact (pod_aggregation_additive_commutative twoClusterSnapA twoClusterSnapB
      [("X", 15, 3)] [("X", 15, 3)] hA hB hperm "X").1
  · norm_num [clusterContrib, clusterXList, podEntryContrib, pod_effective_name,
      Prod.ext_iff, show ("X" : String) ≠ "" from by decide]
  · norm_num [clusterContrib, clusterXMap, mapItemContrib, Prod.ext_iff]

/-- C4: the pod name set is the sorted duplicate-free union of all pod names
observed at any timestamp, and a pod with no record at a timestamp reads as
0 in both series at that position — not an error and not a carry-forward. -/
theorem pod_union_sorted_and_zero_fill (ms : List Merged) :
    List.Sorted (· ≤ ·) (pod_names ms)
    ∧ (pod_names ms).Nodup
    ∧ (∀ n : String, n ∈ pod_names ms ↔ ∃ m ∈ ms, ∃ e ∈ m, e.1 = n)
    ∧ ∀ (n : String) (j : Nat) (m : Merged), ms[j]? = some m → (∀ e ∈ m, e.1 ≠ n) →
        (pod_cpu_series ms n)[j]? = some 0 ∧ (pod_mem_series ms n)[j]? = some 0 := by
  refine ⟨@List.sorted_insertionSort String (· ≤ ·) (fun a b => decStrLe a b)
    inferInstance inferInstance _, ?_, ?_, ?_⟩
  · exact ((@List.perm_insertionSort String (· ≤ ·) (fun a b => decStrLe a b)
      _).nodup_iff).mpr (List.nodup_dedup _)
  · intro n
    simp [pod_names, List.mem_insertionSort, List.mem_dedup, List.mem_flatMap, List.mem_map]
  · intro n j m hj habs
    constructor <;>
      simp [pod_cpu_series, pod_mem_series, List.getElem?_map, hj,
        getPod_eq_zero_of_absent m n habs]

/-- C4 witness: the spec's scenario — pods `A` (10) and `B` (20) at time 0,
only `A` (5) at time 1000 — yields series `A = [10, 5]`, `B = [20, 0]`, the
second slot of `B` being a zero fill. -/
theorem pod_union_sorted_and_zero_fill_witness :
    pod_metrics_by_time podScenarioDoc = some podScenarioMerged
    ∧ pod_names podScenarioMerged = ["A", "B"]
    ∧ pod_cpu_series podScenarioMerged "A" = [10, 5]
    ∧ pod_cpu_series podScenarioMerged "B" = [20, 0]
    ∧ (pod_cpu_series podScenarioMerged "B")[1]? = some 0 := by
  refine ⟨by decide, by decide, by decide, by decide, ?_⟩
  exact ((pod_union_sorted_and_zero_fill podScenarioMerged).2.2.2 "B" 1 [("A", 5, 0)]
    (by decide) (by decide)).1
/-- C1 counterexample: in `dupKeyDoc` the string keys `"7"` and `"007"` both
coerce to the integer 7; the aligned sequences have length 2 while the
number of distinct integer keys is 1, so the keys are not deduplicated
before alignment and the common length is not the distinct-key count. -/
theorem dup_keys_not_deduplicated :
    transaction_counts dupKeyDoc = some [1, 1]
    ∧ (keys_ms dupKeyDoc).length = 2
    ∧ ((dupKeyDoc.map fun kv => kv.1.val).dedup).length = 1
    ∧ (keys_ms dupKeyDoc).length ≠ ((dupKeyDoc.map fun kv => kv.1.val).dedup).length := by
  refine ⟨by decide, by decide, by decide, by decide⟩

/-- C1 (amended): whenever the extractions complete, every aligned output
sequence — sorted keys, transaction counts, fallback CPU values, the rate
series, the per-timestamp merged dicts, and every per-pod series — has
length equal to the number of keys of the document (one slot per string
key, duplicate integer coercions not being deduplicated). -/
theorem aligned_series_common_length (d : Document) (txs cpus : List ℚ) (ms : List Merged)
    (htx : transaction_counts d = some txs) (hcpu : cpu_values d = some cpus)
    (hpm : pod_metrics_by_time d = some ms) :
    (keys_ms d).length = d.length
    ∧ txs.length = d.length
    ∧ cpus.length = d.length
    ∧ (tx_per_sec (keys_ms d) txs).length = d.length
    ∧ ms.length = d.length
    ∧ ∀ n : String, (pod_cpu_series ms n).length = d.length
        ∧ (pod_mem_series ms n).length = d.length := by
  have hk : (keys_ms d).length = d.length := by simp [keys_ms]
  have h1 : txs.length = d.length := (mapOrFail_length _ _ _ htx).trans hk
  have h2 : cpus.length = d.length := (mapOrFail_length _ _ _ hcpu).trans hk
  have h3 : ms.length = d.length := (mapOrFail_length _ _ _ hpm).trans hk
  refine ⟨hk, h1, h2, ?_, h3, ?_⟩
  · simp [tx_per_sec, h1]
  · intro n
    exact ⟨by simp [pod_cpu_series, h3], by simp [pod_mem_series, h3]⟩

/-- C1 witness: the amended length invariant instantiated on the two-sample
document of the rate scenario. -/
theorem aligned_series_common_length_witness :
    transaction_counts sampleDoc = some [0, 50]
    ∧ (tx_per_sec (keys_ms sampleDoc) [0, 50]).length = sampleDoc.length :=
  ⟨by decide, (aligned_series_common_length sampleDoc [0, 50] [100, 200] [[], []]
    (by decide) (by decide) (by decide)).2.2.2.1⟩

/-- C2: for a document whose extraction succeeds, the rate series starts
with 0, and at every later index with a positive time delta it equals the
transaction-count delta divided by the delta in seconds. -/
theorem tx_rate_head_and_formula (d : Document) (txs : List ℚ)
    (htx : transaction_counts d = some txs) (hne : d ≠ []) :
    (tx_per_sec (keys_ms d) txs)[0]? = some 0
    ∧ ∀ i : Nat, 0 < i → i < txs.length →
        0 < (keys_ms d).getD i 0 - (keys_ms d).getD (i - 1) 0 →
        (tx_per_sec (keys_ms d) txs)[i]? =
          some ((txs.getD i 0 - txs.getD (i - 1) 0) /
            ((((keys_ms d).getD i 0 - (keys_ms d).getD (i - 1) 0 : Int) : ℚ) / 1000)) := by
  have hlen : txs.length = d.length := (mapOrFail_length _ _ _ htx).trans (by simp [keys_ms])
  have hpos : 0 < txs.length := hlen ▸ List.length_pos.mpr hne
  constructor
  · rw [tx_per_sec_getElem (keys_ms d) txs 0 hpos]
    simp
  · intro i h0 hi hd
    rw [tx_per_sec_getElem (keys_ms d) txs i hi]
    have h0x : ¬ i = 0 := Nat.pos_iff_ne_zero.mp h0
    have hdx : ¬ (keys_ms d).getD i 0 - (keys_ms d).getD (i - 1) 0 ≤ 0 := not_le.mpr hd
    rw [if_neg h0x, if_neg hdx]

/-- C2 witness: the spec scenario — counts 0 and 50 at timestamps 0 and
1000 give timestamps `[0, 1000]`, CPU `[100, 200]` and rates `[0, 50]`. -/
theorem tx_rate_head_and_formula_witness :
    keys_ms sampleDoc = [0, 1000]
    ∧ transaction_counts sampleDoc = some [0, 50]
    ∧ cpu_values sampleDoc = some [100, 200]
    ∧ (tx_per_sec (keys_ms sampleDoc) [0, 50])[0]? = some 0
    ∧ (tx_per_sec (keys_ms sampleDoc) [0, 50])[1]? = some 50 := by
  have h := tx_rate_head_and_formula sampleDoc [0, 50] (by decide) (by decide)
  refine ⟨by decide, by decide, by decide, h.1, ?_⟩
  have h1 := h.2 1 (by decide) (by decide) (by decide)
  rw [h1]
  norm_num [keys_ms, sampleDoc, List.insertionSort, List.orderedInsert]

/-- C5: whenever the time delta between consecutive aligned timestamps is
non-positive, the rate entry is exactly 0 — the guarded division is never
reached, so no division error or infinity can arise. -/
theorem nonpos_delta_rate_zero (keys : List Int) (txs : List ℚ) (i : Nat)
    (h0 : 0 < i) (hi : i < txs.length)
    (hd : keys.getD i 0 - keys.getD (i - 1) 0 ≤ 0) :
    (tx_per_sec keys txs)[i]? = some 0 := by
  rw [tx_per_sec_getElem keys txs i hi, if_neg (Nat.pos_iff_ne_zero.mp h0), if_pos hd]

/-- C5 witness: duplicate timestamps `[5, 5]` with increasing counts give a
zero rate at index 1. -/
theorem nonpos_delta_rate_zero_witness :
    (([5, 5] : List Int).getD 1 0 - ([5, 5] : List Int).getD 0 0 ≤ 0)
    ∧ (tx_per_sec [5, 5] [1, 2])[1]? = some 0 :=
  ⟨by decide, nonpos_delta_rate_zero [5, 5] [1, 2] 1 (by decide) (by decide) (by decide)⟩
/-- C6: the code's suggested bar width agrees with the spec-side formula
`max(0.8 * min_positive_gap, 1.0)` with fallback `1.0` when no strictly
positive consecutive gap exists, and a document with at most one distinct
integer timestamp always yields bar width 1. -/
theorem bar_width_matches_spec :
    (∀ keys : List Int, bar_width keys = spec_bar_width keys)
    ∧ ∀ d : Document, ((d.map fun kv => kv.1.val).dedup).length ≤ 1 →
        bar_width (keys_ms d) = 1 := by
  have hmain : ∀ keys : List Int, bar_width keys = spec_bar_width keys := by
    intro keys
    unfold bar_width spec_bar_width spec_min_positive_gap min_delta
    by_cases hl : 1 < keys.length
    · rw [if_pos hl]
      cases hmin : (((keys.zip keys.tail).map fun p => p.2 - p.1).filter
          fun dd => decide (0 < dd)).min? with
      | none =>
        simp only [hmin]
        norm_num
      | some g =>
        simp only [hmin]
        rw [mul_comm]
    · rw [if_neg hl]
      have hz : keys.zip keys.tail = [] := zip_tail_nil keys (not_lt.mp hl)
      rw [hz]
      norm_num
  refine ⟨hmain, ?_⟩
  intro d hd
  have hall : ∀ x ∈ keys_ms d, ∀ y ∈ keys_ms d, x = y := by
    intro x hx y hy
    have hx2 : x ∈ (d.map fun kv => kv.1.val).dedup :=
      List.mem_dedup.mpr ((List.mem_insertionSort _).mp hx)
    have hy2 : y ∈ (d.map fun kv => kv.1.val).dedup :=
      List.mem_dedup.mpr ((List.mem_insertionSort _).mp hy)
    exact eq_of_mem_short _ hd x hx2 y hy2
  have hfil : (((keys_ms d).zip (keys_ms d).tail).map fun p => p.2 - p.1).filter
      (fun dd => decide (0 < dd)) = [] := by
    rw [List.filter_eq_nil_iff]
    intro dd hdd
    rw [List.mem_map] at hdd
    obtain ⟨p, hp, rfl⟩ := hdd
    have h1 := List.of_mem_zip hp
    have h2 : p.2 ∈ keys_ms d := List.mem_of_mem_tail h1.2
    have heq : p.1 = p.2 := hall p.1 h1.1 p.2 h2
    simp [heq]
  unfold bar_width min_delta
  by_cases hl : 1 < (keys_ms d).length
  · rw [if_pos hl, hfil]
    norm_num
  · rw [if_neg hl]
    norm_num

/-- C6 witness: gap 1000 gives width 800 on both sides of the comparison,
and the single-key document falls back to width 1. -/
theorem bar_width_matches_spec_witness :
    bar_width [0, 1000] = spec_bar_width [0, 1000]
    ∧ spec_bar_width [0, 1000] = 800
    ∧ ((singleKeyDoc.map fun kv => kv.1.val).dedup).length ≤ 1
    ∧ bar_width (keys_ms singleKeyDoc) = 1 := by
  refine ⟨bar_width_matches_spec.1 [0, 1000], ?_,
    by decide, bar_width_matches_spec.2 singleKeyDoc (by decide)⟩
  have h : spec_bar_width [0, 1000] = max (0.8 * ((1000 : Int) : ℚ)) 1 := rfl
  rw [h]
  norm_num

/-- C7 counterexample: a `podMetrics` list containing a non-`dict` element
makes the pod pass raise (modelled by `none`) instead of being silently
normalized. -/
theorem nondict_pod_in_list_raises :
    pod_metrics_by_time badPodDoc = none := by decide

/-- C7 (amended): missing fields, non-`dict` cluster entries, oddly-shaped
`podMetrics` values, non-`dict` pod records in the *mapping* form, unnamed
pod records and non-positive time deltas are all silently normalized to
defaults or skipped; but a non-`dict` element of a `podMetrics` *list*
raises instead of being normalized. -/
theorem shape_tolerances_except_list_pods :
    (∀ (m : Merged) (k : String), procMapPod m (k, .nondict) = m)
    ∧ (∀ m : Merged, procCluster m .nondict = some m)
    ∧ (∀ m : Merged, procCluster m (.dict (some .other)) = some m)
    ∧ (∀ m : Merged, procCluster m (.dict none) = some m)
    ∧ (∀ m : Merged, procListPod m (.dict {}) = some m)
    ∧ mergedOf {} = some []
    ∧ tx_per_sec [3, 3] [0, 10] = [0, 0]
    ∧ (∀ m : Merged, procListPod m .nondict = none) :=
  ⟨fun _ _ => rfl, fun _ => rfl, fun _ => rfl, fun _ => rfl, fun _ => rfl, rfl,
    by decide, fun _ => rfl⟩

/-- C8 counterexample: the read-failure message is printed to standard
output (Python `print`), not to standard error as claimed. -/
theorem read_error_message_on_stdout :
    (plot_metrics (.err "No such file or directory")).output =
      [(Chan.stdout, "Error reading JSON file: No such file or directory")]
    ∧ Chan.stdout ≠ Chan.stderr :=
  ⟨rfl, by decide⟩

/-- C8 (amended): every failed open/parse prints one descriptive message —
to standard output — and exits with status 1 with no chart window opened
and no other output produced. -/
theorem read_error_exits_before_charts (e : String) :
    plot_metrics (.err e) =
      { output := [(Chan.stdout, "Error reading JSON file: " ++ e)]
        exitCode := some 1
        chartsShown := 0 } := rfl

/-- C9: the empty document aligns without failure into all-empty sequences,
with bar width 1, and the run completes normally showing its two charts. -/
theorem empty_document_all_empty :
    keys_ms [] = []
    ∧ transaction_counts [] = some []
    ∧ cpu_values [] = some []
    ∧ pod_metrics_by_time [] = some []
    ∧ pod_names [] = []
    ∧ tx_per_sec (keys_ms []) [] = []
    ∧ bar_width (keys_ms []) = 1
    ∧ plot_metrics (.ok []) = { output := [], exitCode := none, chartsShown := 2 } := by
  refine ⟨rfl, rfl, rfl, rfl, rfl, rfl, ?_, rfl⟩
  norm_num [bar_width, min_delta, keys_ms]

/-- C10 counterexample: `shadowKeyDoc` contains the non-canonical key
`"007"` (whose integer form 7 renders back as `"7"`), yet the transaction
count extraction succeeds because `"7"` is also a key — so a non-canonical
key does not by itself cause a `KeyError`, and the program is total on some
documents with non-canonical keys. -/
theorem noncanonical_key_extraction_succeeds :
    shadowKeyDoc.map (fun kv => kv.1.str) = ["7", "007"]
    ∧ toString (7 : Int) = "7"
    ∧ ("007" : String) ≠ "7"
    ∧ transaction_counts shadowKeyDoc = some [3, 3] := by
  refine ⟨by decide, by decide, by decide, by decide⟩

/-- C10 (amended): the transaction-count (and fallback CPU) extraction
raises `KeyError` exactly when some key's canonical rendering
`str(int(k))` is absent from the document's literal keys, while the
pod-metrics pass substitutes an empty record whenever its lookup misses. -/
theorem extraction_fails_iff_canonical_key_missing (d : Document) :
    (transaction_counts d = none ↔ ∃ kv ∈ d, lookupStr d (toString kv.1.val) = none)
    ∧ (cpu_values d = none ↔ ∃ kv ∈ d, lookupStr d (toString kv.1.val) = none)
    ∧ ∀ k : Int, lookupStr d (toString k) = none → getStr d (toString k) = {} := by
  have hmem : ∀ k : Int, k ∈ keys_ms d ↔ ∃ kv ∈ d, kv.1.val = k := by
    intro k
    simp [keys_ms]
  have hiff : ∀ f : Snapshot → ℚ,
      (mapOrFail (fun k => (lookupStr d (toString k)).map f) (keys_ms d) = none ↔
        ∃ kv ∈ d, lookupStr d (toString kv.1.val) = none) := by
    intro f
    rw [mapOrFail_eq_none_iff]
    constructor
    · rintro ⟨k, hk, hfk⟩
      rw [Option.map_eq_none'] at hfk
      obtain ⟨kv, hkv, rfl⟩ := (hmem k).mp hk
      exact ⟨kv, hkv, hfk⟩
    · rintro ⟨kv, hkv, hl⟩
      refine ⟨kv.1.val, (hmem _).mpr ⟨kv, hkv, rfl⟩, ?_⟩
      rw [Option.map_eq_none']
      exact hl
  refine ⟨hiff _, hiff _, ?_⟩
  intro k h
  simp [getStr, h]

/-- C10 witness: the document whose only key is the non-canonical `"007"`
fails the transaction extraction with `KeyError`, while the pod pass reads
an empty record for it. -/
theorem extraction_fails_iff_canonical_key_missing_witness :
    transaction_counts orphanKeyDoc = none
    ∧ getStr orphanKeyDoc (toString (7 : Int)) = {} := by
  have h := extraction_fails_iff_canonical_key_missing orphanKeyDoc
  exact ⟨h.1.mpr ⟨(⟨"007", 7⟩, { transactionCount := some 9 }), by decide, by decide⟩,
    h.2.2 7 (by decide)⟩
end PlotMetrics
